import Mathlib

/-!
Shallow embedding of the `occult` Rust crate: a generic "magic handler"
dispatch core.  The crate exposes

* an `Extractor` trait (`src/lib.rs`): `extract(topic: T, context) -> Result<Self, Error>`,
* a `Handler` trait (`src/lib.rs`) with one entry point
  `invoke(&self, frame: impl Into<T>, state: State) -> Future<Result<Response, Error>>`,
* a macro-generated blanket implementation `define_handler_for_tuple`
  (`src/function_impl.rs`) of `Handler` for every plain function of arity
  0 through 12 whose parameters all implement `Extractor`, and
* a built-in `State` extractor (`src/extractors.rs`).

The blanket implementation's body is, uniformly in the arity:

    let handler = self.clone();
    let input = input.into();
    async move {
      (for each declared parameter, in declared order:)
        let p_i = match P_i::extract(input.clone(), &state) {
          Ok(value) => value,
          Err(rejection) => return Err(rejection.into()),
        };
      let response = handler(p_1, ..., p_n).await;
      Ok(response.into())
    }

We embed this algorithm as a pure Lean function over a heterogeneous
telescope of extractors (one per declared parameter, each with its own
parameter type, error type and error conversion into the unified boxed
error type `B`, mirroring the per-parameter bound
`P::Error: Into<Box<dyn Error>>`).  Async execution is sequential within
one invocation in the source (every `await` happens in order inside one
future), so the pure sequential function is the faithful denotation of a
single invocation.  An instrumented variant additionally records the
observable events of a run (input clones, extractor runs, handler-body
run, response conversion) so that ordering and short-circuit properties
can be stated; a relational big-step semantics mirrors the same control
flow as an inductive predicate.
-/

namespace Occult

/-- Heterogeneous list indexed by the list of its element types; used for the
fully extracted parameter tuple `(p_1, ..., p_n)` that the handler body is
called with. -/
inductive HList : List Type → Type 1 where
  | nil : HList []
  | cons {P : Type} {Ps : List Type} (head : P) (tail : HList Ps) : HList (P :: Ps)

/-- A telescope of extractors over the shared value type `V`, state type `S`
and unified boxed error type `B` (the model of `Box<dyn std::error::Error>`).
Each declared parameter `P` contributes its extraction function
`V → S → Except E P` (the model of `P::extract(input.clone(), &state)`)
together with the error conversion `E → B` required by the bound
`P::Error: Into<Box<dyn std::error::Error>>` in `define_handler_for_tuple`. -/
inductive Extractors (V S B : Type) : List Type → Type 1 where
  | nil : Extractors V S B []
  | cons {P E : Type} {Ps : List Type}
      (extract : V → S → Except E P) (intoBox : E → B)
      (rest : Extractors V S B Ps) : Extractors V S B (P :: Ps)

/-- Concatenation of extractor telescopes; used to state properties about
"the k-th declared parameter" by splitting the telescope around position k. -/
def Extractors.append {V S B : Type} :
    {Ps Qs : List Type} → Extractors V S B Ps → Extractors V S B Qs →
      Extractors V S B (Ps ++ Qs)
  | _, _, .nil, es2 => es2
  | _, _, .cons ext intoBox rest, es2 => .cons ext intoBox (rest.append es2)

/-- Whether every extractor of the telescope succeeds on the given value and
state.  This is the condition under which the source's extraction loop falls
through to the handler body. -/
def Extractors.allOk {V S B : Type} :
    {Ps : List Type} → Extractors V S B Ps → V → S → Bool
  | _, .nil, _, _ => true
  | _, .cons ext _ rest, v, s => (ext v s).isOk && rest.allOk v s

/-- One instantiation of the blanket `Handler` implementation from
`src/function_impl.rs`: a function `func` of arity `Ps.length` (taking the
extracted parameter tuple), the telescope of its parameters' extractors, and
the response conversion `Output: Into<T>`.  The associated types of the
source implementation are `Response = T` (here `V`) and
`Error = Box<dyn std::error::Error>` (here `B`). -/
structure Handler (V S B : Type) (Ps : List Type) (Out : Type) : Type 1 where
  extractors : Extractors V S B Ps
  func : HList Ps → Out
  intoResponse : Out → V

/-- Sequential extraction of every declared parameter, in declared order,
from (a clone of) the input value and the shared state: the expansion of the
repeated `let p_i = match P_i::extract(input.clone(), context) { Ok(v) => v,
Err(rejection) => return Err(rejection.into()) }` block.  The first failure
aborts the rest and is converted into the unified error type at the point of
failure. -/
def extractAll {V S B : Type} :
    {Ps : List Type} → Extractors V S B Ps → V → S → Except B (HList Ps)
  | _, .nil, _, _ => .ok .nil
  | _, .cons ext intoBox rest, v, s =>
    match ext v s with
    | .error rejection => .error (intoBox rejection)
    | .ok value =>
      match extractAll rest v s with
      | .error e => .error e
      | .ok args => .ok (.cons value args)

/-- The single-invocation denotation of `Handler::invoke` from
`src/function_impl.rs`: convert the caller's input into the canonical value
type (`let input = input.into()`), run every extractor in declared order
short-circuiting on the first failure, then run the handler body on the
extracted tuple and convert its output into the response
(`Ok(response.into())`).  The result type `Except B V` records that the
response type of the invocation is the value type `V` itself
(`type Response = T`). -/
def Handler.invoke {V S B I : Type} {Ps : List Type} {Out : Type}
    (h : Handler V S B Ps Out) (intoT : I → V) (input : I) (state : S) :
    Except B V :=
  let input := intoT input
  match extractAll h.extractors input state with
  | .error e => .error e
  | .ok args => .ok (h.intoResponse (h.func args))

/-- Observable events of one invocation, used to state ordering,
short-circuit and clone-count properties: `cloned i` is the `input.clone()`
performed for the i-th declared parameter (0-based), `extracted i ok` is the
run of the i-th parameter's extractor with its outcome, `bodyRun` is the run
of the handler body, and `converted` is the response conversion. -/
inductive Ev where
  | cloned (i : Nat)
  | extracted (i : Nat) (ok : Bool)
  | bodyRun
  | converted
  deriving DecidableEq, Repr

/-- The event trace of a fully successful run of `n` extractors starting at
parameter index `i`: clone then successful extraction, per parameter, in
ascending declared order. -/
def okEvents : Nat → Nat → List Ev
  | _, 0 => []
  | i, Nat.succ k => .cloned i :: .extracted i true :: okEvents (i + 1) k

/-- Instrumented sequential extraction: same result as `extractAll`, and
additionally the list of events it performs, in order.  `i` is the 0-based
index of the first parameter of the telescope. -/
def extractAllEv {V S B : Type} :
    {Ps : List Type} → Extractors V S B Ps → V → S → Nat →
      Except B (HList Ps) × List Ev
  | _, .nil, _, _, _ => (.ok .nil, [])
  | _, .cons ext intoBox rest, v, s, i =>
    match ext v s with
    | .error rejection =>
      (.error (intoBox rejection), [.cloned i, .extracted i false])
    | .ok value =>
      match extractAllEv rest v s (i + 1) with
      | (.error e, evs) => (.error e, .cloned i :: .extracted i true :: evs)
      | (.ok args, evs) => (.ok (.cons value args), .cloned i :: .extracted i true :: evs)

/-- Instrumented single invocation: same result as `Handler.invoke`, plus the
ordered event trace of the run. -/
def Handler.invokeEv {V S B I : Type} {Ps : List Type} {Out : Type}
    (h : Handler V S B Ps Out) (intoT : I → V) (input : I) (state : S) :
    Except B V × List Ev :=
  let input := intoT input
  match extractAllEv h.extractors input state 0 with
  | (.error e, evs) => (.error e, evs)
  | (.ok args, evs) =>
    (.ok (h.intoResponse (h.func args)), evs ++ [.bodyRun, .converted])

/-- The built-in state-passthrough extractor from `src/extractors.rs`:
`pub struct State<T>(pub T)`. -/
structure State (T : Type) where
  val : T

/-- The `Extractor` implementation of `State<GivenState>` from
`src/extractors.rs`: it ignores the input value, clones the context,
converts it into `GivenState` (the source's
`GivenState::from(context.into())`, where the outer `from` is the reflexive
conversion) and returns it wrapped in `State`, inside `Ok`.  Its error type
is `String`; cloning of the pure context value is value-preserving and so is
the identity in the embedding. -/
def State.extract {T C GS : Type} (intoGiven : C → GS) (_ : T) (context : C) :
    Except String (State GS) :=
  let context := context
  let context := intoGiven context
  Except.ok ⟨context⟩

/-- Relational big-step semantics of the extraction loop: `ExtractsTo v s es r`
holds exactly of the runs the source's control flow can produce on telescope
`es`, with `r` the outcome.  Mirrors `extractAll`; used to state determinism
as a property of runs rather than as reflexivity of a function. -/
inductive ExtractsTo {V S B : Type} (v : V) (s : S) :
    {Ps : List Type} → Extractors V S B Ps → Except B (HList Ps) → Prop where
  | nil : ExtractsTo v s .nil (.ok .nil)
  | consErr {P E : Type} {Ps : List Type}
      {ext : V → S → Except E P} {intoBox : E → B}
      {rest : Extractors V S B Ps} {e : E}
      (h : ext v s = .error e) :
      ExtractsTo v s (.cons ext intoBox rest) (.error (intoBox e))
  | consOk {P E : Type} {Ps : List Type}
      {ext : V → S → Except E P} {intoBox : E → B}
      {rest : Extractors V S B Ps} {p : P} {args : HList Ps}
      (h : ext v s = .ok p) (hr : ExtractsTo v s rest (.ok args)) :
      ExtractsTo v s (.cons ext intoBox rest) (.ok (.cons p args))
  | consRestErr {P E : Type} {Ps : List Type}
      {ext : V → S → Except E P} {intoBox : E → B}
      {rest : Extractors V S B Ps} {p : P} {e : B}
      (h : ext v s = .ok p) (hr : ExtractsTo v s rest (.error e)) :
      ExtractsTo v s (.cons ext intoBox rest) (.error e)

/-- Relational big-step semantics of one invocation: extraction either fails,
and the invocation surfaces the (already converted) failure, or all
parameters extract and the invocation returns the converted output of the
handler body on the extracted tuple. -/
inductive Invokes {V S B I : Type} {Ps : List Type} {Out : Type}
    (h : Handler V S B Ps Out) (intoT : I → V) (input : I) (state : S) :
    Except B V → Prop where
  | fail {e : B} (hex : ExtractsTo (intoT input) state h.extractors (.error e)) :
      Invokes h intoT input state (.error e)
  | succeed {args : HList Ps}
      (hex : ExtractsTo (intoT input) state h.extractors (.ok args)) :
      Invokes h intoT input state (.ok (h.intoResponse (h.func args)))

/-! Concrete scenario from `src/tests/example/main.rs`: the application value
type `Frame` (a byte-buffer envelope), the `Topic` extractor that decodes the
bytes as UTF-8, and the three-parameter handler of the `multiple_args` test. -/

/-- Model of Rust std `String::into_bytes` (and `str::as_bytes`): the UTF-8
encoding of the string as a byte list. -/
def strBytes (s : String) : List UInt8 :=
  s.data.flatMap String.utf8EncodeChar

/-- Whether a byte is a UTF-8 continuation byte (`10xxxxxx`). -/
def isCont (b : UInt8) : Bool :=
  0x80 ≤ b.toNat && b.toNat < 0xC0

/-- The payload bits of a continuation byte. -/
def contVal (b : UInt8) : Nat := b.toNat - 0x80

/-- Modelled from Rust std `String::from_utf8`'s validation (an external
collaborator of this crate, used by the example `Topic` extractor): standard
UTF-8 decoding of a byte list, rejecting invalid leading bytes, missing or
malformed continuation bytes, overlong encodings, surrogates and code points
above `U+10FFFF`.  Returns the decoded code points. -/
def utf8Decode? : List UInt8 → Option (List Nat)
  | [] => some []
  | b0 :: bs =>
    if b0.toNat < 0x80 then
      (utf8Decode? bs).map (b0.toNat :: ·)
    else if b0.toNat < 0xC2 then
      none
    else if b0.toNat < 0xE0 then
      match bs with
      | b1 :: bs1 =>
        if isCont b1 then
          (utf8Decode? bs1).map (fun cs => ((b0.toNat - 0xC0) * 0x40 + contVal b1) :: cs)
        else none
      | [] => none
    else if b0.toNat < 0xF0 then
      match bs with
      | b1 :: b2 :: bs2 =>
        if isCont b1 && isCont b2 then
          let c := (b0.toNat - 0xE0) * 0x1000 + contVal b1 * 0x40 + contVal b2
          if 0x800 ≤ c && ¬ (0xD800 ≤ c && c < 0xE000) then
            (utf8Decode? bs2).map (c :: ·)
          else none
        else none
      | _ => none
    else if b0.toNat < 0xF5 then
      match bs with
      | b1 :: b2 :: b3 :: bs3 =>
        if isCont b1 && isCont b2 && isCont b3 then
          let c := (b0.toNat - 0xF0) * 0x40000 + contVal b1 * 0x1000 +
            contVal b2 * 0x40 + contVal b3
          if 0x10000 ≤ c && c < 0x110000 then
            (utf8Decode? bs3).map (c :: ·)
          else none
        else none
      | _ => none
    else none

/-- Model of Rust std `String::from_utf8`: decode the byte list, rebuilding
the string from the decoded code points. -/
def stringFromUtf8? (bs : List UInt8) : Option String :=
  (utf8Decode? bs).map (fun cs => ⟨cs.map Char.ofNat⟩)

/-- The core type of the example application (`src/tests/example/main.rs`):
`struct Frame(Vec<u8>)`, a byte buffer envelope. -/
structure Frame where
  bytes : List UInt8
  deriving DecidableEq, Repr

/-- The example's `impl From<String> for Frame`: `Frame(string.into_bytes())`. -/
def Frame.ofString (s : String) : Frame := ⟨strBytes s⟩

/-- The example's decoded-topic parameter type: `struct Topic(String)`. -/
structure Topic where
  text : String
  deriving DecidableEq, Repr

/-- The example's `impl Extractor<Frame, State> for Topic`: decode the
frame's bytes as UTF-8 (`String::from_utf8(topic.0)`), mapping a decoding
failure to its error message (modelled as a fixed string standing for
`FromUtf8Error::to_string()`) and wrapping a successful decode in `Topic`.
The state context is ignored, mirroring the generic `_: &Context` argument. -/
def Topic.extract {S : Type} (frame : Frame) (_ : S) : Except String Topic :=
  match stringFromUtf8? frame.bytes with
  | none => .error "invalid utf-8 sequence"
  | some s => .ok ⟨s⟩

/-- The three-parameter handler of the `multiple_args` test:
`async fn multi_handler(topic: Topic, topic2: Topic, topic3: Topic) -> String`
returning `format!("Hello, {topic} {topic2} {topic3}!")`, assembled with the
three `Topic` extractors (each error already a `String`, converted by the
identity into the unified error type) and the `From<String> for Frame`
response conversion. -/
def multiHandler : Handler Frame Unit String [Topic, Topic, Topic] String where
  extractors :=
    .cons Topic.extract id (.cons Topic.extract id (.cons Topic.extract id .nil))
  func := fun args =>
    match args with
    | .cons t1 (.cons t2 (.cons t3 .nil)) =>
      "Hello, " ++ t1.text ++ " " ++ t2.text ++ " " ++ t3.text ++ "!"
  intoResponse := Frame.ofString

/-- Unrolled expansion of the blanket implementation the macro
`define_handler_for_tuple` generates at arity 0: the literal sequential
match chain over the 0 declared parameters, ending in the handler body and
the response conversion. -/
def invokeArity0 {V S B I Out : Type}
    (handler : Out) (intoResponse : Out → V)
    (intoT : I → V) (input : I) (state : S) : Except B V :=
  let input := intoT input
  .ok (intoResponse handler)

/-- Unrolled expansion of the blanket implementation the macro
`define_handler_for_tuple` generates at arity 1: the literal sequential
match chain over the 1 declared parameters, ending in the handler body and
the response conversion. -/
def invokeArity1 {V S B I : Type} {P1 E1 Out : Type}
    (ext1 : V → S → Except E1 P1) (into1 : E1 → B)
    (handler : P1 → Out) (intoResponse : Out → V)
    (intoT : I → V) (input : I) (state : S) : Except B V :=
  let input := intoT input
  match ext1 input state with
  | .error rejection => .error (into1 rejection)
  | .ok a1 =>
    .ok (intoResponse (handler a1))

/-- Unrolled expansion of the blanket implementation the macro
`define_handler_for_tuple` generates at arity 2: the literal sequential
match chain over the 2 declared parameters, ending in the handler body and
the response conversion. -/
def invokeArity2 {V S B I : Type} {P1 E1 P2 E2 Out : Type}
    (ext1 : V → S → Except E1 P1) (into1 : E1 → B)
    (ext2 : V → S → Except E2 P2) (into2 : E2 → B)
    (handler : P1 → P2 → Out) (intoResponse : Out → V)
    (intoT : I → V) (input : I) (state : S) : Except B V :=
  let input := intoT input
  match ext1 input state with
  | .error rejection => .error (into1 rejection)
  | .ok a1 =>
    match ext2 input state with
    | .error rejection => .error (into2 rejection)
    | .ok a2 =>
      .ok (intoResponse (handler a1 a2))

/-- Unrolled expansion of the blanket implementation the macro
`define_handler_for_tuple` generates at arity 3: the literal sequential
match chain over the 3 declared parameters, ending in the handler body and
the response conversion. -/
def invokeArity3 {V S B I : Type} {P1 E1 P2 E2 P3 E3 Out : Type}
    (ext1 : V → S → Except E1 P1) (into1 : E1 → B)
    (ext2 : V → S → Except E2 P2) (into2 : E2 → B)
    (ext3 : V → S → Except E3 P3) (into3 : E3 → B)
    (handler : P1 → P2 → P3 → Out) (intoResponse : Out → V)
    (intoT : I → V) (input : I) (state : S) : Except B V :=
  let input := intoT input
  match ext1 input state with
  | .error rejection => .error (into1 rejection)
  | .ok a1 =>
    match ext2 input state with
    | .error rejection => .error (into2 rejection)
    | .ok a2 =>
      match ext3 input state with
      | .error rejection => .error (into3 rejection)
      | .ok a3 =>
        .ok (intoResponse (handler a1 a2 a3))

/-- Unrolled expansion of the blanket implementation the macro
`define_handler_for_tuple` generates at arity 4: the literal sequential
match chain over the 4 declared parameters, ending in the handler body and
the response conversion. -/
def invokeArity4 {V S B I : Type} {P1 E1 P2 E2 P3 E3 P4 E4 Out : Type}
    (ext1 : V → S → Except E1 P1) (into1 : E1 → B)
    (ext2 : V → S → Except E2 P2) (into2 : E2 → B)
    (ext3 : V → S → Except E3 P3) (into3 : E3 → B)
    (ext4 : V → S → Except E4 P4) (into4 : E4 → B)
    (handler : P1 → P2 → P3 → P4 → Out) (intoResponse : Out → V)
    (intoT : I → V) (input : I) (state : S) : Except B V :=
  let input := intoT input
  match ext1 input state with
  | .error rejection => .error (into1 rejection)
  | .ok a1 =>
    match ext2 input state with
    | .error rejection => .error (into2 rejection)
    | .ok a2 =>
      match ext3 input state with
      | .error rejection => .error (into3 rejection)
      | .ok a3 =>
        match ext4 input state with
        | .error rejection => .error (into4 rejection)
        | .ok a4 =>
          .ok (intoResponse (handler a1 a2 a3 a4))

/-- Unrolled expansion of the blanket implementation the macro
`define_handler_for_tuple` generates at arity 5: the literal sequential
match chain over the 5 declared parameters, ending in the handler body and
the response conversion. -/
def invokeArity5 {V S B I : Type} {P1 E1 P2 E2 P3 E3 P4 E4 P5 E5 Out : Type}
    (ext1 : V → S → Except E1 P1) (into1 : E1 → B)
    (ext2 : V → S → Except E2 P2) (into2 : E2 → B)
    (ext3 : V → S → Except E3 P3) (into3 : E3 → B)
    (ext4 : V → S → Except E4 P4) (into4 : E4 → B)
    (ext5 : V → S → Except E5 P5) (into5 : E5 → B)
    (handler : P1 → P2 → P3 → P4 → P5 → Out) (intoResponse : Out → V)
    (intoT : I → V) (input : I) (state : S) : Except B V :=
  let input := intoT input
  match ext1 input state with
  | .error rejection => .error (into1 rejection)
  | .ok a1 =>
    match ext2 input state with
    | .error rejection => .error (into2 rejection)
    | .ok a2 =>
      match ext3 input state with
      | .error rejection => .error (into3 rejection)
      | .ok a3 =>
        match ext4 input state with
        | .error rejection => .error (into4 rejection)
        | .ok a4 =>
          match ext5 input state with
          | .error rejection => .error (into5 rejection)
          | .ok a5 =>
            .ok (intoResponse (handler a1 a2 a3 a4 a5))

/-- Unrolled expansion of the blanket implementation the macro
`define_handler_for_tuple` generates at arity 6: the literal sequential
match chain over the 6 declared parameters, ending in the handler body and
the response conversion. -/
def invokeArity6 {V S B I : Type} {P1 E1 P2 E2 P3 E3 P4 E4 P5 E5 P6 E6 Out : Type}
    (ext1 : V → S → Except E1 P1) (into1 : E1 → B)
    (ext2 : V → S → Except E2 P2) (into2 : E2 → B)
    (ext3 : V → S → Except E3 P3) (into3 : E3 → B)
    (ext4 : V → S → Except E4 P4) (into4 : E4 → B)
    (ext5 : V → S → Except E5 P5) (into5 : E5 → B)
    (ext6 : V → S → Except E6 P6) (into6 : E6 → B)
    (handler : P1 → P2 → P3 → P4 → P5 → P6 → Out) (intoResponse : Out → V)
    (intoT : I → V) (input : I) (state : S) : Except B V :=
  let input := intoT input
  match ext1 input state with
  | .error rejection => .error (into1 rejection)
  | .ok a1 =>
    match ext2 input state with
    | .error rejection => .error (into2 rejection)
    | .ok a2 =>
      match ext3 input state with
      | .error rejection => .error (into3 rejection)
      | .ok a3 =>
        match ext4 input state with
        | .error rejection => .error (into4 rejection)
        | .ok a4 =>
          match ext5 input state with
          | .error rejection => .error (into5 rejection)
          | .ok a5 =>
            match ext6 input state with
            | .error rejection => .error (into6 rejection)
            | .ok a6 =>
              .ok (intoResponse (handler a1 a2 a3 a4 a5 a6))

/-- Unrolled expansion of the blanket implementation the macro
`define_handler_for_tuple` generates at arity 7: the literal sequential
match chain over the 7 declared parameters, ending in the handler body and
the response conversion. -/
def invokeArity7 {V S B I : Type} {P1 E1 P2 E2 P3 E3 P4 E4 P5 E5 P6 E6 P7 E7 Out : Type}
    (ext1 : V → S → Except E1 P1) (into1 : E1 → B)
    (ext2 : V → S → Except E2 P2) (into2 : E2 → B)
    (ext3 : V → S → Except E3 P3) (into3 : E3 → B)
    (ext4 : V → S → Except E4 P4) (into4 : E4 → B)
    (ext5 : V → S → Except E5 P5) (into5 : E5 → B)
    (ext6 : V → S → Except E6 P6) (into6 : E6 → B)
    (ext7 : V → S → Except E7 P7) (into7 : E7 → B)
    (handler : P1 → P2 → P3 → P4 → P5 → P6 → P7 → Out) (intoResponse : Out → V)
    (intoT : I → V) (input : I) (state : S) : Except B V :=
  let input := intoT input
  match ext1 input state with
  | .error rejection => .error (into1 rejection)
  | .ok a1 =>
    match ext2 input state with
    | .error rejection => .error (into2 rejection)
    | .ok a2 =>
      match ext3 input state with
      | .error rejection => .error (into3 rejection)
      | .ok a3 =>
        match ext4 input state with
        | .error rejection => .error (into4 rejection)
        | .ok a4 =>
          match ext5 input state with
          | .error rejection => .error (into5 rejection)
          | .ok a5 =>
            match ext6 input state with
            | .error rejection => .error (into6 rejection)
            | .ok a6 =>
              match ext7 input state with
              | .error rejection => .error (into7 rejection)
              | .ok a7 =>
                .ok (intoResponse (handler a1 a2 a3 a4 a5 a6 a7))

/-- Unrolled expansion of the blanket implementation the macro
`define_handler_for_tuple` generates at arity 8: the literal sequential
match chain over the 8 declared parameters, ending in the handler body and
the response conversion. -/
def invokeArity8 {V S B I : Type} {P1 E1 P2 E2 P3 E3 P4 E4 P5 E5 P6 E6 P7 E7 P8 E8 Out : Type}
    (ext1 : V → S → Except E1 P1) (into1 : E1 → B)
    (ext2 : V → S → Except E2 P2) (into2 : E2 → B)
    (ext3 : V → S → Except E3 P3) (into3 : E3 → B)
    (ext4 : V → S → Except E4 P4) (into4 : E4 → B)
    (ext5 : V → S → Except E5 P5) (into5 : E5 → B)
    (ext6 : V → S → Except E6 P6) (into6 : E6 → B)
    (ext7 : V → S → Except E7 P7) (into7 : E7 → B)
    (ext8 : V → S → Except E8 P8) (into8 : E8 → B)
    (handler : P1 → P2 → P3 → P4 → P5 → P6 → P7 → P8 → Out) (intoResponse : Out → V)
    (intoT : I → V) (input : I) (state : S) : Except B V :=
  let input := intoT input
  match ext1 input state with
  | .error rejection => .error (into1 rejection)
  | .ok a1 =>
    match ext2 input state with
    | .error rejection => .error (into2 rejection)
    | .ok a2 =>
      match ext3 input state with
      | .error rejection => .error (into3 rejection)
      | .ok a3 =>
        match ext4 input state with
        | .error rejection => .error (into4 rejection)
        | .ok a4 =>
          match ext5 input state with
          | .error rejection => .error (into5 rejection)
          | .ok a5 =>
            match ext6 input state with
            | .error rejection => .error (into6 rejection)
            | .ok a6 =>
              match ext7 input state with
              | .error rejection => .error (into7 rejection)
              | .ok a7 =>
                match ext8 input state with
                | .error rejection => .error (into8 rejection)
                | .ok a8 =>
                  .ok (intoResponse (handler a1 a2 a3 a4 a5 a6 a7 a8))

/-- Unrolled expansion of the blanket implementation the macro
`define_handler_for_tuple` generates at arity 9: the literal sequential
match chain over the 9 declared parameters, ending in the handler body and
the response conversion. -/
def invokeArity9 {V S B I : Type} {P1 E1 P2 E2 P3 E3 P4 E4 P5 E5 P6 E6 P7 E7 P8 E8 P9 E9 Out : Type}
    (ext1 : V → S → Except E1 P1) (into1 : E1 → B)
    (ext2 : V → S → Except E2 P2) (into2 : E2 → B)
    (ext3 : V → S → Except E3 P3) (into3 : E3 → B)
    (ext4 : V → S → Except E4 P4) (into4 : E4 → B)
    (ext5 : V → S → Except E5 P5) (into5 : E5 → B)
    (ext6 : V → S → Except E6 P6) (into6 : E6 → B)
    (ext7 : V → S → Except E7 P7) (into7 : E7 → B)
    (ext8 : V → S → Except E8 P8) (into8 : E8 → B)
    (ext9 : V → S → Except E9 P9) (into9 : E9 → B)
    (handler : P1 → P2 → P3 → P4 → P5 → P6 → P7 → P8 → P9 → Out) (intoResponse : Out → V)
    (intoT : I → V) (input : I) (state : S) : Except B V :=
  let input := intoT input
  match ext1 input state with
  | .error rejection => .error (into1 rejection)
  | .ok a1 =>
    match ext2 input state with
    | .error rejection => .error (into2 rejection)
    | .ok a2 =>
      match ext3 input state with
      | .error rejection => .error (into3 rejection)
      | .ok a3 =>
        match ext4 input state with
        | .error rejection => .error (into4 rejection)
        | .ok a4 =>
          match ext5 input state with
          | .error rejection => .error (into5 rejection)
          | .ok a5 =>
            match ext6 input state with
            | .error rejection => .error (into6 rejection)
            | .ok a6 =>
              match ext7 input state with
              | .error rejection => .error (into7 rejection)
              | .ok a7 =>
                match ext8 input state with
                | .error rejection => .error (into8 rejection)
                | .ok a8 =>
                  match ext9 input state with
                  | .error rejection => .error (into9 rejection)
                  | .ok a9 =>
                    .ok (intoResponse (handler a1 a2 a3 a4 a5 a6 a7 a8 a9))

/-- Unrolled expansion of the blanket implementation the macro
`define_handler_for_tuple` generates at arity 10: the literal sequential
match chain over the 10 declared parameters, ending in the handler body and
the response conversion. -/
def invokeArity10 {V S B I : Type} {P1 E1 P2 E2 P3 E3 P4 E4 P5 E5 P6 E6 P7 E7 P8 E8 P9 E9 P10 E10 Out : Type}
    (ext1 : V → S → Except E1 P1) (into1 : E1 → B)
    (ext2 : V → S → Except E2 P2) (into2 : E2 → B)
    (ext3 : V → S → Except E3 P3) (into3 : E3 → B)
    (ext4 : V → S → Except E4 P4) (into4 : E4 → B)
    (ext5 : V → S → Except E5 P5) (into5 : E5 → B)
    (ext6 : V → S → Except E6 P6) (into6 : E6 → B)
    (ext7 : V → S → Except E7 P7) (into7 : E7 → B)
    (ext8 : V → S → Except E8 P8) (into8 : E8 → B)
    (ext9 : V → S → Except E9 P9) (into9 : E9 → B)
    (ext10 : V → S → Except E10 P10) (into10 : E10 → B)
    (handler : P1 → P2 → P3 → P4 → P5 → P6 → P7 → P8 → P9 → P10 → Out) (intoResponse : Out → V)
    (intoT : I → V) (input : I) (state : S) : Except B V :=
  let input := intoT input
  match ext1 input state with
  | .error rejection => .error (into1 rejection)
  | .ok a1 =>
    match ext2 input state with
    | .error rejection => .error (into2 rejection)
    | .ok a2 =>
      match ext3 input state with
      | .error rejection => .error (into3 rejection)
      | .ok a3 =>
        match ext4 input state with
        | .error rejection => .error (into4 rejection)
        | .ok a4 =>
          match ext5 input state with
          | .error rejection => .error (into5 rejection)
          | .ok a5 =>
            match ext6 input state with
            | .error rejection => .error (into6 rejection)
            | .ok a6 =>
              match ext7 input state with
              | .error rejection => .error (into7 rejection)
              | .ok a7 =>
                match ext8 input state with
                | .error rejection => .error (into8 rejection)
                | .ok a8 =>
                  match ext9 input state with
                  | .error rejection => .error (into9 rejection)
                  | .ok a9 =>
                    match ext10 input state with
                    | .error rejection => .error (into10 rejection)
                    | .ok a10 =>
                      .ok (intoResponse (handler a1 a2 a3 a4 a5 a6 a7 a8 a9 a10))

/-- Unrolled expansion of the blanket implementation the macro
`define_handler_for_tuple` generates at arity 11: the literal sequential
match chain over the 11 declared parameters, ending in the handler body and
the response conversion. -/
def invokeArity11 {V S B I : Type} {P1 E1 P2 E2 P3 E3 P4 E4 P5 E5 P6 E6 P7 E7 P8 E8 P9 E9 P10 E10 P11 E11 Out : Type}
    (ext1 : V → S → Except E1 P1) (into1 : E1 → B)
    (ext2 : V → S → Except E2 P2) (into2 : E2 → B)
    (ext3 : V → S → Except E3 P3) (into3 : E3 → B)
    (ext4 : V → S → Except E4 P4) (into4 : E4 → B)
    (ext5 : V → S → Except E5 P5) (into5 : E5 → B)
    (ext6 : V → S → Except E6 P6) (into6 : E6 → B)
    (ext7 : V → S → Except E7 P7) (into7 : E7 → B)
    (ext8 : V → S → Except E8 P8) (into8 : E8 → B)
    (ext9 : V → S → Except E9 P9) (into9 : E9 → B)
    (ext10 : V → S → Except E10 P10) (into10 : E10 → B)
    (ext11 : V → S → Except E11 P11) (into11 : E11 → B)
    (handler : P1 → P2 → P3 → P4 → P5 → P6 → P7 → P8 → P9 → P10 → P11 → Out) (intoResponse : Out → V)
    (intoT : I → V) (input : I) (state : S) : Except B V :=
  let input := intoT input
  match ext1 input state with
  | .error rejection => .error (into1 rejection)
  | .ok a1 =>
    match ext2 input state with
    | .error rejection => .error (into2 rejection)
    | .ok a2 =>
      match ext3 input state with
      | .error rejection => .error (into3 rejection)
      | .ok a3 =>
        match ext4 input state with
        | .error rejection => .error (into4 rejection)
        | .ok a4 =>
          match ext5 input state with
          | .error rejection => .error (into5 rejection)
          | .ok a5 =>
            match ext6 input state with
            | .error rejection => .error (into6 rejection)
            | .ok a6 =>
              match ext7 input state with
              | .error rejection => .error (into7 rejection)
              | .ok a7 =>
                match ext8 input state with
                | .error rejection => .error (into8 rejection)
                | .ok a8 =>
                  match ext9 input state with
                  | .error rejection => .error (into9 rejection)
                  | .ok a9 =>
                    match ext10 input state with
                    | .error rejection => .error (into10 rejection)
                    | .ok a10 =>
                      match ext11 input state with
                      | .error rejection => .error (into11 rejection)
                      | .ok a11 =>
                        .ok (intoResponse (handler a1 a2 a3 a4 a5 a6 a7 a8 a9 a10 a11))

/-- Unrolled expansion of the blanket implementation the macro
`define_handler_for_tuple` generates at arity 12: the literal sequential
match chain over the 12 declared parameters, ending in the handler body and
the response conversion. -/
def invokeArity12 {V S B I : Type} {P1 E1 P2 E2 P3 E3 P4 E4 P5 E5 P6 E6 P7 E7 P8 E8 P9 E9 P10 E10 P11 E11 P12 E12 Out : Type}
    (ext1 : V → S → Except E1 P1) (into1 : E1 → B)
    (ext2 : V → S → Except E2 P2) (into2 : E2 → B)
    (ext3 : V → S → Except E3 P3) (into3 : E3 → B)
    (ext4 : V → S → Except E4 P4) (into4 : E4 → B)
    (ext5 : V → S → Except E5 P5) (into5 : E5 → B)
    (ext6 : V → S → Except E6 P6) (into6 : E6 → B)
    (ext7 : V → S → Except E7 P7) (into7 : E7 → B)
    (ext8 : V → S → Except E8 P8) (into8 : E8 → B)
    (ext9 : V → S → Except E9 P9) (into9 : E9 → B)
    (ext10 : V → S → Except E10 P10) (into10 : E10 → B)
    (ext11 : V → S → Except E11 P11) (into11 : E11 → B)
    (ext12 : V → S → Except E12 P12) (into12 : E12 → B)
    (handler : P1 → P2 → P3 → P4 → P5 → P6 → P7 → P8 → P9 → P10 → P11 → P12 → Out) (intoResponse : Out → V)
    (intoT : I → V) (input : I) (state : S) : Except B V :=
  let input := intoT input
  match ext1 input state with
  | .error rejection => .error (into1 rejection)
  | .ok a1 =>
    match ext2 input state with
    | .error rejection => .error (into2 rejection)
    | .ok a2 =>
      match ext3 input state with
      | .error rejection => .error (into3 rejection)
      | .ok a3 =>
        match ext4 input state with
        | .error rejection => .error (into4 rejection)
        | .ok a4 =>
          match ext5 input state with
          | .error rejection => .error (into5 rejection)
          | .ok a5 =>
            match ext6 input state with
            | .error rejection => .error (into6 rejection)
            | .ok a6 =>
              match ext7 input state with
              | .error rejection => .error (into7 rejection)
              | .ok a7 =>
                match ext8 input state with
                | .error rejection => .error (into8 rejection)
                | .ok a8 =>
                  match ext9 input state with
                  | .error rejection => .error (into9 rejection)
                  | .ok a9 =>
                    match ext10 input state with
                    | .error rejection => .error (into10 rejection)
                    | .ok a10 =>
                      match ext11 input state with
                      | .error rejection => .error (into11 rejection)
                      | .ok a11 =>
                        match ext12 input state with
                        | .error rejection => .error (into12 rejection)
                        | .ok a12 =>
                          .ok (intoResponse (handler a1 a2 a3 a4 a5 a6 a7 a8 a9 a10 a11 a12))

/-- Statement that the arity-0 unrolled implementation agrees, at every
instantiation, with the single generic invocation algorithm. -/
def AgreesArity0 : Prop :=
  ∀ {V S B I Out : Type}
    (handler : Out) (intoResponse : Out → V)
    (intoT : I → V) (input : I) (state : S),
    @invokeArity0 V S B I Out handler intoResponse intoT input state =
      Handler.invoke
        ⟨.nil,
         fun _ => handler,
         intoResponse⟩ intoT input state

/-- Statement that the arity-1 unrolled implementation agrees, at every
instantiation, with the single generic invocation algorithm. -/
def AgreesArity1 : Prop :=
  ∀ {V S B I : Type} {P1 E1 Out : Type}
    (ext1 : V → S → Except E1 P1) (into1 : E1 → B)
    (handler : P1 → Out) (intoResponse : Out → V)
    (intoT : I → V) (input : I) (state : S),
    invokeArity1 ext1 into1 handler intoResponse intoT input state =
      Handler.invoke
        ⟨.cons ext1 into1 .nil,
         fun args => match args with | .cons a1 .nil => handler a1,
         intoResponse⟩ intoT input state

/-- Statement that the arity-2 unrolled implementation agrees, at every
instantiation, with the single generic invocation algorithm. -/
def AgreesArity2 : Prop :=
  ∀ {V S B I : Type} {P1 E1 P2 E2 Out : Type}
    (ext1 : V → S → Except E1 P1) (into1 : E1 → B)
    (ext2 : V → S → Except E2 P2) (into2 : E2 → B)
    (handler : P1 → P2 → Out) (intoResponse : Out → V)
    (intoT : I → V) (input : I) (state : S),
    invokeArity2 ext1 into1 ext2 into2 handler intoResponse intoT input state =
      Handler.invoke
        ⟨.cons ext1 into1 (.cons ext2 into2 .nil),
         fun args => match args with | .cons a1 (.cons a2 .nil) => handler a1 a2,
         intoResponse⟩ intoT input state

/-- Statement that the arity-3 unrolled implementation agrees, at every
instantiation, with the single generic invocation algorithm. -/
def AgreesArity3 : Prop :=
  ∀ {V S B I : Type} {P1 E1 P2 E2 P3 E3 Out : Type}
    (ext1 : V → S → Except E1 P1) (into1 : E1 → B)
    (ext2 : V → S → Except E2 P2) (into2 : E2 → B)
    (ext3 : V → S → Except E3 P3) (into3 : E3 → B)
    (handler : P1 → P2 → P3 → Out) (intoResponse : Out → V)
    (intoT : I → V) (input : I) (state : S),
    invokeArity3 ext1 into1 ext2 into2 ext3 into3 handler intoResponse intoT input state =
      Handler.invoke
        ⟨.cons ext1 into1 (.cons ext2 into2 (.cons ext3 into3 .nil)),
         fun args => match args with | .cons a1 (.cons a2 (.cons a3 .nil)) => handler a1 a2 a3,
         intoResponse⟩ intoT input state

/-- Statement that the arity-4 unrolled implementation agrees, at every
instantiation, with the single generic invocation algorithm. -/
def AgreesArity4 : Prop :=
  ∀ {V S B I : Type} {P1 E1 P2 E2 P3 E3 P4 E4 Out : Type}
    (ext1 : V → S → Except E1 P1) (into1 : E1 → B)
    (ext2 : V → S → Except E2 P2) (into2 : E2 → B)
    (ext3 : V → S → Except E3 P3) (into3 : E3 → B)
    (ext4 : V → S → Except E4 P4) (into4 : E4 → B)
    (handler : P1 → P2 → P3 → P4 → Out) (intoResponse : Out → V)
    (intoT : I → V) (input : I) (state : S),
    invokeArity4 ext1 into1 ext2 into2 ext3 into3 ext4 into4 handler intoResponse intoT input state =
      Handler.invoke
        ⟨.cons ext1 into1 (.cons ext2 into2 (.cons ext3 into3 (.cons ext4 into4 .nil))),
         fun args => match args with | .cons a1 (.cons a2 (.cons a3 (.cons a4 .nil))) => handler a1 a2 a3 a4,
         intoResponse⟩ intoT input state

/-- Statement that the arity-5 unrolled implementation agrees, at every
instantiation, with the single generic invocation algorithm. -/
def AgreesArity5 : Prop :=
  ∀ {V S B I : Type} {P1 E1 P2 E2 P3 E3 P4 E4 P5 E5 Out : Type}
    (ext1 : V → S → Except E1 P1) (into1 : E1 → B)
    (ext2 : V → S → Except E2 P2) (into2 : E2 → B)
    (ext3 : V → S → Except E3 P3) (into3 : E3 → B)
    (ext4 : V → S → Except E4 P4) (into4 : E4 → B)
    (ext5 : V → S → Except E5 P5) (into5 : E5 → B)
    (handler : P1 → P2 → P3 → P4 → P5 → Out) (intoResponse : Out → V)
    (intoT : I → V) (input : I) (state : S),
    invokeArity5 ext1 into1 ext2 into2 ext3 into3 ext4 into4 ext5 into5 handler intoResponse intoT input state =
      Handler.invoke
        ⟨.cons ext1 into1 (.cons ext2 into2 (.cons ext3 into3 (.cons ext4 into4 (.cons ext5 into5 .nil)))),
         fun args => match args with | .cons a1 (.cons a2 (.cons a3 (.cons a4 (.cons a5 .nil)))) => handler a1 a2 a3 a4 a5,
         intoResponse⟩ intoT input state

/-- Statement that the arity-6 unrolled implementation agrees, at every
instantiation, with the single generic invocation algorithm. -/
def AgreesArity6 : Prop :=
  ∀ {V S B I : Type} {P1 E1 P2 E2 P3 E3 P4 E4 P5 E5 P6 E6 Out : Type}
    (ext1 : V → S → Except E1 P1) (into1 : E1 → B)
    (ext2 : V → S → Except E2 P2) (into2 : E2 → B)
    (ext3 : V → S → Except E3 P3) (into3 : E3 → B)
    (ext4 : V → S → Except E4 P4) (into4 : E4 → B)
    (ext5 : V → S → Except E5 P5) (into5 : E5 → B)
    (ext6 : V → S → Except E6 P6) (into6 : E6 → B)
    (handler : P1 → P2 → P3 → P4 → P5 → P6 → Out) (intoResponse : Out → V)
    (intoT : I → V) (input : I) (state : S),
    invokeArity6 ext1 into1 ext2 into2 ext3 into3 ext4 into4 ext5 into5 ext6 into6 handler intoResponse intoT input state =
      Handler.invoke
        ⟨.cons ext1 into1 (.cons ext2 into2 (.cons ext3 into3 (.cons ext4 into4 (.cons ext5 into5 (.cons ext6 into6 .nil))))),
         fun args => match args with | .cons a1 (.cons a2 (.cons a3 (.cons a4 (.cons a5 (.cons a6 .nil))))) => handler a1 a2 a3 a4 a5 a6,
         intoResponse⟩ intoT input state

/-- Statement that the arity-7 unrolled implementation agrees, at every
instantiation, with the single generic invocation algorithm. -/
def AgreesArity7 : Prop :=
  ∀ {V S B I : Type} {P1 E1 P2 E2 P3 E3 P4 E4 P5 E5 P6 E6 P7 E7 Out : Type}
    (ext1 : V → S → Except E1 P1) (into1 : E1 → B)
    (ext2 : V → S → Except E2 P2) (into2 : E2 → B)
    (ext3 : V → S → Except E3 P3) (into3 : E3 → B)
    (ext4 : V → S → Except E4 P4) (into4 : E4 → B)
    (ext5 : V → S → Except E5 P5) (into5 : E5 → B)
    (ext6 : V → S → Except E6 P6) (into6 : E6 → B)
    (ext7 : V → S → Except E7 P7) (into7 : E7 → B)
    (handler : P1 → P2 → P3 → P4 → P5 → P6 → P7 → Out) (intoResponse : Out → V)
    (intoT : I → V) (input : I) (state : S),
    invokeArity7 ext1 into1 ext2 into2 ext3 into3 ext4 into4 ext5 into5 ext6 into6 ext7 into7 handler intoResponse intoT input state =
      Handler.invoke
        ⟨.cons ext1 into1 (.cons ext2 into2 (.cons ext3 into3 (.cons ext4 into4 (.cons ext5 into5 (.cons ext6 into6 (.cons ext7 into7 .nil)))))),
         fun args => match args with | .cons a1 (.cons a2 (.cons a3 (.cons a4 (.cons a5 (.cons a6 (.cons a7 .nil)))))) => handler a1 a2 a3 a4 a5 a6 a7,
         intoResponse⟩ intoT input state

/-- Statement that the arity-8 unrolled implementation agrees, at every
instantiation, with the single generic invocation algorithm. -/
def AgreesArity8 : Prop :=
  ∀ {V S B I : Type} {P1 E1 P2 E2 P3 E3 P4 E4 P5 E5 P6 E6 P7 E7 P8 E8 Out : Type}
    (ext1 : V → S → Except E1 P1) (into1 : E1 → B)
    (ext2 : V → S → Except E2 P2) (into2 : E2 → B)
    (ext3 : V → S → Except E3 P3) (into3 : E3 → B)
    (ext4 : V → S → Except E4 P4) (into4 : E4 → B)
    (ext5 : V → S → Except E5 P5) (into5 : E5 → B)
    (ext6 : V → S → Except E6 P6) (into6 : E6 → B)
    (ext7 : V → S → Except E7 P7) (into7 : E7 → B)
    (ext8 : V → S → Except E8 P8) (into8 : E8 → B)
    (handler : P1 → P2 → P3 → P4 → P5 → P6 → P7 → P8 → Out) (intoResponse : Out → V)
    (intoT : I → V) (input : I) (state : S),
    invokeArity8 ext1 into1 ext2 into2 ext3 into3 ext4 into4 ext5 into5 ext6 into6 ext7 into7 ext8 into8 handler intoResponse intoT input state =
      Handler.invoke
        ⟨.cons ext1 into1 (.cons ext2 into2 (.cons ext3 into3 (.cons ext4 into4 (.cons ext5 into5 (.cons ext6 into6 (.cons ext7 into7 (.cons ext8 into8 .nil))))))),
         fun args => match args with | .cons a1 (.cons a2 (.cons a3 (.cons a4 (.cons a5 (.cons a6 (.cons a7 (.cons a8 .nil))))))) => handler a1 a2 a3 a4 a5 a6 a7 a8,
         intoResponse⟩ intoT input state

/-- Statement that the arity-9 unrolled implementation agrees, at every
instantiation, with the single generic invocation algorithm. -/
def AgreesArity9 : Prop :=
  ∀ {V S B I : Type} {P1 E1 P2 E2 P3 E3 P4 E4 P5 E5 P6 E6 P7 E7 P8 E8 P9 E9 Out : Type}
    (ext1 : V → S → Except E1 P1) (into1 : E1 → B)
    (ext2 : V → S → Except E2 P2) (into2 : E2 → B)
    (ext3 : V → S → Except E3 P3) (into3 : E3 → B)
    (ext4 : V → S → Except E4 P4) (into4 : E4 → B)
    (ext5 : V → S → Except E5 P5) (into5 : E5 → B)
    (ext6 : V → S → Except E6 P6) (into6 : E6 → B)
    (ext7 : V → S → Except E7 P7) (into7 : E7 → B)
    (ext8 : V → S → Except E8 P8) (into8 : E8 → B)
    (ext9 : V → S → Except E9 P9) (into9 : E9 → B)
    (handler : P1 → P2 → P3 → P4 → P5 → P6 → P7 → P8 → P9 → Out) (intoResponse : Out → V)
    (intoT : I → V) (input : I) (state : S),
    invokeArity9 ext1 into1 ext2 into2 ext3 into3 ext4 into4 ext5 into5 ext6 into6 ext7 into7 ext8 into8 ext9 into9 handler intoResponse intoT input state =
      Handler.invoke
        ⟨.cons ext1 into1 (.cons ext2 into2 (.cons ext3 into3 (.cons ext4 into4 (.cons ext5 into5 (.cons ext6 into6 (.cons ext7 into7 (.cons ext8 into8 (.cons ext9 into9 .nil)))))))),
         fun args => match args with | .cons a1 (.cons a2 (.cons a3 (.cons a4 (.cons a5 (.cons a6 (.cons a7 (.cons a8 (.cons a9 .nil)))))))) => handler a1 a2 a3 a4 a5 a6 a7 a8 a9,
         intoResponse⟩ intoT input state

/-- Statement that the arity-10 unrolled implementation agrees, at every
instantiation, with the single generic invocation algorithm. -/
def AgreesArity10 : Prop :=
  ∀ {V S B I : Type} {P1 E1 P2 E2 P3 E3 P4 E4 P5 E5 P6 E6 P7 E7 P8 E8 P9 E9 P10 E10 Out : Type}
    (ext1 : V → S → Except E1 P1) (into1 : E1 → B)
    (ext2 : V → S → Except E2 P2) (into2 : E2 → B)
    (ext3 : V → S → Except E3 P3) (into3 : E3 → B)
    (ext4 : V → S → Except E4 P4) (into4 : E4 → B)
    (ext5 : V → S → Except E5 P5) (into5 : E5 → B)
    (ext6 : V → S → Except E6 P6) (into6 : E6 → B)
    (ext7 : V → S → Except E7 P7) (into7 : E7 → B)
    (ext8 : V → S → Except E8 P8) (into8 : E8 → B)
    (ext9 : V → S → Except E9 P9) (into9 : E9 → B)
    (ext10 : V → S → Except E10 P10) (into10 : E10 → B)
    (handler : P1 → P2 → P3 → P4 → P5 → P6 → P7 → P8 → P9 → P10 → Out) (intoResponse : Out → V)
    (intoT : I → V) (input : I) (state : S),
    invokeArity10 ext1 into1 ext2 into2 ext3 into3 ext4 into4 ext5 into5 ext6 into6 ext7 into7 ext8 into8 ext9 into9 ext10 into10 handler intoResponse intoT input state =
      Handler.invoke
        ⟨.cons ext1 into1 (.cons ext2 into2 (.cons ext3 into3 (.cons ext4 into4 (.cons ext5 into5 (.cons ext6 into6 (.cons ext7 into7 (.cons ext8 into8 (.cons ext9 into9 (.cons ext10 into10 .nil))))))))),
         fun args => match args with | .cons a1 (.cons a2 (.cons a3 (.cons a4 (.cons a5 (.cons a6 (.cons a7 (.cons a8 (.cons a9 (.cons a10 .nil))))))))) => handler a1 a2 a3 a4 a5 a6 a7 a8 a9 a10,
         intoResponse⟩ intoT input state

/-- Statement that the arity-11 unrolled implementation agrees, at every
instantiation, with the single generic invocation algorithm. -/
def AgreesArity11 : Prop :=
  ∀ {V S B I : Type} {P1 E1 P2 E2 P3 E3 P4 E4 P5 E5 P6 E6 P7 E7 P8 E8 P9 E9 P10 E10 P11 E11 Out : Type}
    (ext1 : V → S → Except E1 P1) (into1 : E1 → B)
    (ext2 : V → S → Except E2 P2) (into2 : E2 → B)
    (ext3 : V → S → Except E3 P3) (into3 : E3 → B)
    (ext4 : V → S → Except E4 P4) (into4 : E4 → B)
    (ext5 : V → S → Except E5 P5) (into5 : E5 → B)
    (ext6 : V → S → Except E6 P6) (into6 : E6 → B)
    (ext7 : V → S → Except E7 P7) (into7 : E7 → B)
    (ext8 : V → S → Except E8 P8) (into8 : E8 → B)
    (ext9 : V → S → Except E9 P9) (into9 : E9 → B)
    (ext10 : V → S → Except E10 P10) (into10 : E10 → B)
    (ext11 : V → S → Except E11 P11) (into11 : E11 → B)
    (handler : P1 → P2 → P3 → P4 → P5 → P6 → P7 → P8 → P9 → P10 → P11 → Out) (intoResponse : Out → V)
    (intoT : I → V) (input : I) (state : S),
    invokeArity11 ext1 into1 ext2 into2 ext3 into3 ext4 into4 ext5 into5 ext6 into6 ext7 into7 ext8 into8 ext9 into9 ext10 into10 ext11 into11 handler intoResponse intoT input state =
      Handler.invoke
        ⟨.cons ext1 into1 (.cons ext2 into2 (.cons ext3 into3 (.cons ext4 into4 (.cons ext5 into5 (.cons ext6 into6 (.cons ext7 into7 (.cons ext8 into8 (.cons ext9 into9 (.cons ext10 into10 (.cons ext11 into11 .nil)))))))))),
         fun args => match args with | .cons a1 (.cons a2 (.cons a3 (.cons a4 (.cons a5 (.cons a6 (.cons a7 (.cons a8 (.cons a9 (.cons a10 (.cons a11 .nil)))))))))) => handler a1 a2 a3 a4 a5 a6 a7 a8 a9 a10 a11,
         intoResponse⟩ intoT input state

/-- Statement that the arity-12 unrolled implementation agrees, at every
instantiation, with the single generic invocation algorithm. -/
def AgreesArity12 : Prop :=
  ∀ {V S B I : Type} {P1 E1 P2 E2 P3 E3 P4 E4 P5 E5 P6 E6 P7 E7 P8 E8 P9 E9 P10 E10 P11 E11 P12 E12 Out : Type}
    (ext1 : V → S → Except E1 P1) (into1 : E1 → B)
    (ext2 : V → S → Except E2 P2) (into2 : E2 → B)
    (ext3 : V → S → Except E3 P3) (into3 : E3 → B)
    (ext4 : V → S → Except E4 P4) (into4 : E4 → B)
    (ext5 : V → S → Except E5 P5) (into5 : E5 → B)
    (ext6 : V → S → Except E6 P6) (into6 : E6 → B)
    (ext7 : V → S → Except E7 P7) (into7 : E7 → B)
    (ext8 : V → S → Except E8 P8) (into8 : E8 → B)
    (ext9 : V → S → Except E9 P9) (into9 : E9 → B)
    (ext10 : V → S → Except E10 P10) (into10 : E10 → B)
    (ext11 : V → S → Except E11 P11) (into11 : E11 → B)
    (ext12 : V → S → Except E12 P12) (into12 : E12 → B)
    (handler : P1 → P2 → P3 → P4 → P5 → P6 → P7 → P8 → P9 → P10 → P11 → P12 → Out) (intoResponse : Out → V)
    (intoT : I → V) (input : I) (state : S),
    invokeArity12 ext1 into1 ext2 into2 ext3 into3 ext4 into4 ext5 into5 ext6 into6 ext7 into7 ext8 into8 ext9 into9 ext10 into10 ext11 into11 ext12 into12 handler intoResponse intoT input state =
      Handler.invoke
        ⟨.cons ext1 into1 (.cons ext2 into2 (.cons ext3 into3 (.cons ext4 into4 (.cons ext5 into5 (.cons ext6 into6 (.cons ext7 into7 (.cons ext8 into8 (.cons ext9 into9 (.cons ext10 into10 (.cons ext11 into11 (.cons ext12 into12 .nil))))))))))),
         fun args => match args with | .cons a1 (.cons a2 (.cons a3 (.cons a4 (.cons a5 (.cons a6 (.cons a7 (.cons a8 (.cons a9 (.cons a10 (.cons a11 (.cons a12 .nil))))))))))) => handler a1 a2 a3 a4 a5 a6 a7 a8 a9 a10 a11 a12,
         intoResponse⟩ intoT input state

/-- Whether an event is an input clone; used to count the clones one
invocation performs. -/
def Ev.isClone : Ev → Bool
  | .cloned _ => true
  | _ => false

/-- Example extractor over value and state type `Nat` that always succeeds
with the sum of value and state; used to instantiate the generic theorems at
concrete inputs. -/
def addExtract (v : Nat) (s : Nat) : Except String Nat :=
  .ok (v + s)

/-- Example extractor that always fails; used to instantiate the
short-circuit theorems at concrete inputs. -/
def boomExtract (_ : Nat) (_ : Nat) : Except String Nat :=
  .error "boom"

/-- Example arity-1 handler built from `addExtract`, used to instantiate the
generic theorems at concrete inputs. -/
def addHandler : Handler Nat Nat String [Nat] Nat where
  extractors := .cons addExtract id .nil
  func := fun args => match args with | .cons a .nil => a
  intoResponse := id

/-- Example arity-3 handler whose second declared parameter's extractor
always fails, written with the telescope split around the failing position;
used to instantiate the short-circuit theorem at concrete inputs. -/
def tripleHandler : Handler Nat Nat String ([Nat] ++ Nat :: [Nat]) Nat where
  extractors := (Extractors.cons addExtract id .nil).append
    (.cons boomExtract id (.cons addExtract id .nil))
  func := fun args => match args with
    | .cons a (.cons b (.cons c .nil)) => a + b + c
  intoResponse := id

/-- Example zero-parameter handler whose body signals an error through its
own declared result type (`Except String Int`), converted into the response
by mapping the error side to `-1`.  Used to probe whether a body-signalled
error can surface as an `Err` of the invocation. -/
def errorSignallingHandler : Handler Int Unit String [] (Except String Int) where
  extractors := .nil
  func := fun _ => Except.error "boom"
  intoResponse := fun o => match o with | .ok n => n | .error _ => -1

/-- The arity-0 instantiation of the blanket implementation is an instance
of the one generic algorithm. -/
theorem agreesArity0 : AgreesArity0 := by
  intro V S B I Out handler intoResponse intoT input state
  rfl

/-- The arity-1 instantiation of the blanket implementation is an instance
of the one generic algorithm. -/
theorem agreesArity1 : AgreesArity1 := by
  intro V S B I P1 E1 Out ext1 into1 handler intoResponse intoT input state
  simp only [AgreesArity1, invokeArity1, Handler.invoke, extractAll]
  cases ext1 (intoT input) state
  · rfl
  · rfl

/-- The arity-2 instantiation of the blanket implementation is an instance
of the one generic algorithm. -/
theorem agreesArity2 : AgreesArity2 := by
  intro V S B I P1 E1 P2 E2 Out ext1 into1 ext2 into2 handler intoResponse intoT input state
  simp only [AgreesArity2, invokeArity2, Handler.invoke, extractAll]
  cases ext1 (intoT input) state
  · rfl
  · cases ext2 (intoT input) state
    · rfl
    · rfl

/-- The arity-3 instantiation of the blanket implementation is an instance
of the one generic algorithm. -/
theorem agreesArity3 : AgreesArity3 := by
  intro V S B I P1 E1 P2 E2 P3 E3 Out ext1 into1 ext2 into2 ext3 into3 handler intoResponse intoT input state
  simp only [AgreesArity3, invokeArity3, Handler.invoke, extractAll]
  cases ext1 (intoT input) state
  · rfl
  · cases ext2 (intoT input) state
    · rfl
    · cases ext3 (intoT input) state
      · rfl
      · rfl

/-- The arity-4 instantiation of the blanket implementation is an instance
of the one generic algorithm. -/
theorem agreesArity4 : AgreesArity4 := by
  intro V S B I P1 E1 P2 E2 P3 E3 P4 E4 Out ext1 into1 ext2 into2 ext3 into3 ext4 into4 handler intoResponse intoT input state
  simp only [AgreesArity4, invokeArity4, Handler.invoke, extractAll]
  cases ext1 (intoT input) state
  · rfl
  · cases ext2 (intoT input) state
    · rfl
    · cases ext3 (intoT input) state
      · rfl
      · cases ext4 (intoT input) state
        · rfl
        · rfl

/-- The arity-5 instantiation of the blanket implementation is an instance
of the one generic algorithm. -/
theorem agreesArity5 : AgreesArity5 := by
  intro V S B I P1 E1 P2 E2 P3 E3 P4 E4 P5 E5 Out ext1 into1 ext2 into2 ext3 into3 ext4 into4 ext5 into5 handler intoResponse intoT input state
  simp only [AgreesArity5, invokeArity5, Handler.invoke, extractAll]
  cases ext1 (intoT input) state
  · rfl
  · cases ext2 (intoT input) state
    · rfl
    · cases ext3 (intoT input) state
      · rfl
      · cases ext4 (intoT input) state
        · rfl
        · cases ext5 (intoT input) state
          · rfl
          · rfl

/-- The arity-6 instantiation of the blanket implementation is an instance
of the one generic algorithm. -/
theorem agreesArity6 : AgreesArity6 := by
  intro V S B I P1 E1 P2 E2 P3 E3 P4 E4 P5 E5 P6 E6 Out ext1 into1 ext2 into2 ext3 into3 ext4 into4 ext5 into5 ext6 into6 handler intoResponse intoT input state
  simp only [AgreesArity6, invokeArity6, Handler.invoke, extractAll]
  cases ext1 (intoT input) state
  · rfl
  · cases ext2 (intoT input) state
    · rfl
    · cases ext3 (intoT input) state
      · rfl
      · cases ext4 (intoT input) state
        · rfl
        · cases ext5 (intoT input) state
          · rfl
          · cases ext6 (intoT input) state
            · rfl
            · rfl

/-- The arity-7 instantiation of the blanket implementation is an instance
of the one generic algorithm. -/
theorem agreesArity7 : AgreesArity7 := by
  intro V S B I P1 E1 P2 E2 P3 E3 P4 E4 P5 E5 P6 E6 P7 E7 Out ext1 into1 ext2 into2 ext3 into3 ext4 into4 ext5 into5 ext6 into6 ext7 into7 handler intoResponse intoT input state
  simp only [AgreesArity7, invokeArity7, Handler.invoke, extractAll]
  cases ext1 (intoT input) state
  · rfl
  · cases ext2 (intoT input) state
    · rfl
    · cases ext3 (intoT input) state
      · rfl
      · cases ext4 (intoT input) state
        · rfl
        · cases ext5 (intoT input) state
          · rfl
          · cases ext6 (intoT input) state
            · rfl
            · cases ext7 (intoT input) state
              · rfl
              · rfl

/-- The arity-8 instantiation of the blanket implementation is an instance
of the one generic algorithm. -/
theorem agreesArity8 : AgreesArity8 := by
  intro V S B I P1 E1 P2 E2 P3 E3 P4 E4 P5 E5 P6 E6 P7 E7 P8 E8 Out ext1 into1 ext2 into2 ext3 into3 ext4 into4 ext5 into5 ext6 into6 ext7 into7 ext8 into8 handler intoResponse intoT input state
  simp only [AgreesArity8, invokeArity8, Handler.invoke, extractAll]
  cases ext1 (intoT input) state
  · rfl
  · cases ext2 (intoT input) state
    · rfl
    · cases ext3 (intoT input) state
      · rfl
      · cases ext4 (intoT input) state
        · rfl
        · cases ext5 (intoT input) state
          · rfl
          · cases ext6 (intoT input) state
            · rfl
            · cases ext7 (intoT input) state
              · rfl
              · cases ext8 (intoT input) state
                · rfl
                · rfl

/-- The arity-9 instantiation of the blanket implementation is an instance
of the one generic algorithm. -/
theorem agreesArity9 : AgreesArity9 := by
  intro V S B I P1 E1 P2 E2 P3 E3 P4 E4 P5 E5 P6 E6 P7 E7 P8 E8 P9 E9 Out ext1 into1 ext2 into2 ext3 into3 ext4 into4 ext5 into5 ext6 into6 ext7 into7 ext8 into8 ext9 into9 handler intoResponse intoT input state
  simp only [AgreesArity9, invokeArity9, Handler.invoke, extractAll]
  cases ext1 (intoT input) state
  · rfl
  · cases ext2 (intoT input) state
    · rfl
    · cases ext3 (intoT input) state
      · rfl
      · cases ext4 (intoT input) state
        · rfl
        · cases ext5 (intoT input) state
          · rfl
          · cases ext6 (intoT input) state
            · rfl
            · cases ext7 (intoT input) state
              · rfl
              · cases ext8 (intoT input) state
                · rfl
                · cases ext9 (intoT input) state
                  · rfl
                  · rfl

/-- The arity-10 instantiation of the blanket implementation is an instance
of the one generic algorithm. -/
theorem agreesArity10 : AgreesArity10 := by
  intro V S B I P1 E1 P2 E2 P3 E3 P4 E4 P5 E5 P6 E6 P7 E7 P8 E8 P9 E9 P10 E10 Out ext1 into1 ext2 into2 ext3 into3 ext4 into4 ext5 into5 ext6 into6 ext7 into7 ext8 into8 ext9 into9 ext10 into10 handler intoResponse intoT input state
  simp only [AgreesArity10, invokeArity10, Handler.invoke, extractAll]
  cases ext1 (intoT input) state
  · rfl
  · cases ext2 (intoT input) state
    · rfl
    · cases ext3 (intoT input) state
      · rfl
      · cases ext4 (intoT input) state
        · rfl
        · cases ext5 (intoT input) state
          · rfl
          · cases ext6 (intoT input) state
            · rfl
            · cases ext7 (intoT input) state
              · rfl
              · cases ext8 (intoT input) state
                · rfl
                · cases ext9 (intoT input) state
                  · rfl
                  · cases ext10 (intoT input) state
                    · rfl
                    · rfl

/-- The arity-11 instantiation of the blanket implementation is an instance
of the one generic algorithm. -/
theorem agreesArity11 : AgreesArity11 := by
  intro V S B I P1 E1 P2 E2 P3 E3 P4 E4 P5 E5 P6 E6 P7 E7 P8 E8 P9 E9 P10 E10 P11 E11 Out ext1 into1 ext2 into2 ext3 into3 ext4 into4 ext5 into5 ext6 into6 ext7 into7 ext8 into8 ext9 into9 ext10 into10 ext11 into11 handler intoResponse intoT input state
  simp only [AgreesArity11, invokeArity11, Handler.invoke, extractAll]
  cases ext1 (intoT input) state
  · rfl
  · cases ext2 (intoT input) state
    · rfl
    · cases ext3 (intoT input) state
      · rfl
      · cases ext4 (intoT input) state
        · rfl
        · cases ext5 (intoT input) state
          · rfl
          · cases ext6 (intoT input) state
            · rfl
            · cases ext7 (intoT input) state
              · rfl
              · cases ext8 (intoT input) state
                · rfl
                · cases ext9 (intoT input) state
                  · rfl
                  · cases ext10 (intoT input) state
                    · rfl
                    · cases ext11 (intoT input) state
                      · rfl
                      · rfl

/-- The arity-12 instantiation of the blanket implementation is an instance
of the one generic algorithm. -/
theorem agreesArity12 : AgreesArity12 := by
  intro V S B I P1 E1 P2 E2 P3 E3 P4 E4 P5 E5 P6 E6 P7 E7 P8 E8 P9 E9 P10 E10 P11 E11 P12 E12 Out ext1 into1 ext2 into2 ext3 into3 ext4 into4 ext5 into5 ext6 into6 ext7 into7 ext8 into8 ext9 into9 ext10 into10 ext11 into11 ext12 into12 handler intoResponse intoT input state
  simp only [AgreesArity12, invokeArity12, Handler.invoke, extractAll]
  cases ext1 (intoT input) state
  · rfl
  · cases ext2 (intoT input) state
    · rfl
    · cases ext3 (intoT input) state
      · rfl
      · cases ext4 (intoT input) state
        · rfl
        · cases ext5 (intoT input) state
          · rfl
          · cases ext6 (intoT input) state
            · rfl
            · cases ext7 (intoT input) state
              · rfl
              · cases ext8 (intoT input) state
                · rfl
                · cases ext9 (intoT input) state
                  · rfl
                  · cases ext10 (intoT input) state
                    · rfl
                    · cases ext11 (intoT input) state
                      · rfl
                      · cases ext12 (intoT input) state
                        · rfl
                        · rfl

/-! Helper lemmas relating the plain, instrumented and relational semantics. -/

/-- The instrumented extraction computes the same result as the plain one. -/
theorem extractAllEv_fst {V S B : Type} {Ps : List Type}
    (es : Extractors V S B Ps) (v : V) (s : S) (i : Nat) :
    (extractAllEv es v s i).1 = extractAll es v s := by
  induction es generalizing i with
  | nil => rfl
  | cons ext intoBox rest ih =>
    simp only [extractAllEv, extractAll]
    cases ext v s with
    | error rejection => rfl
    | ok value =>
      have ih' := ih (i + 1)
      rcases hrec : extractAllEv rest v s (i + 1) with ⟨fst, snd⟩
      rw [hrec] at ih'
      rw [← ih']
      cases fst <;> rfl

/-- The instrumented invocation computes the same result as `Handler.invoke`. -/
theorem invokeEv_fst {V S B I : Type} {Ps : List Type} {Out : Type}
    (h : Handler V S B Ps Out) (intoT : I → V) (input : I) (state : S) :
    (h.invokeEv intoT input state).1 = h.invoke intoT input state := by
  simp only [Handler.invokeEv, Handler.invoke]
  have hfst := extractAllEv_fst h.extractors (intoT input) state 0
  rcases hrec : extractAllEv h.extractors (intoT input) state 0 with ⟨fst, snd⟩
  rw [hrec] at hfst
  rw [← hfst]
  cases fst <;> rfl

/-- Extraction succeeds exactly when every extractor of the telescope
succeeds. -/
theorem extractAll_isOk {V S B : Type} {Ps : List Type}
    (es : Extractors V S B Ps) (v : V) (s : S) :
    (extractAll es v s).isOk = es.allOk v s := by
  induction es with
  | nil => rfl
  | cons ext intoBox rest ih =>
    simp only [extractAll, Extractors.allOk]
    cases ext v s with
    | error rejection => rfl
    | ok value =>
      cases hrec : extractAll rest v s <;> simp_all [Except.isOk, Except.toBool]

/-- The extraction loop alone never emits a handler-body event. -/
theorem bodyRun_not_mem_extractAllEv {V S B : Type} {Ps : List Type}
    (es : Extractors V S B Ps) (v : V) (s : S) (i : Nat) :
    Ev.bodyRun ∉ (extractAllEv es v s i).2 := by
  induction es generalizing i with
  | nil => simp [extractAllEv]
  | cons ext intoBox rest ih =>
    simp only [extractAllEv]
    cases ext v s with
    | error rejection => simp
    | ok value =>
      have ih' := ih (i + 1)
      rcases hrec : extractAllEv rest v s (i + 1) with ⟨fst, snd⟩
      rw [hrec] at ih'
      cases fst <;> simp_all

/-- When every extractor succeeds, the extraction trace is exactly the
clone-then-extract events of each parameter, in ascending declared order. -/
theorem extractAllEv_snd_allOk {V S B : Type} {Ps : List Type}
    (es : Extractors V S B Ps) (v : V) (s : S) (i : Nat)
    (h : es.allOk v s = true) :
    (extractAllEv es v s i).2 = okEvents i Ps.length := by
  induction es generalizing i with
  | nil => rfl
  | cons ext intoBox rest ih =>
    simp only [Extractors.allOk, Bool.and_eq_true] at h
    obtain ⟨h1, h2⟩ := h
    simp only [extractAllEv]
    cases hext : ext v s with
    | error rejection => rw [hext] at h1; simp [Except.isOk, Except.toBool] at h1
    | ok value =>
      have ih' := ih (i + 1) h2
      rcases hrec : extractAllEv rest v s (i + 1) with ⟨fst, snd⟩
      rw [hrec] at ih'
      cases fst <;> simp_all [okEvents]

/-- Short-circuiting of the extraction loop: if every extractor before
position k succeeds and the one at position k fails, the loop performs
exactly the events of parameters 0..k (the k-th failing), returns the k-th
failure converted by the k-th conversion, and touches nothing after k. -/
theorem extractAllEv_shortCircuit {V S B : Type} {Ps Qs : List Type}
    {P E : Type}
    (es1 : Extractors V S B Ps) (ext : V → S → Except E P) (intoBox : E → B)
    (es2 : Extractors V S B Qs) (v : V) (s : S) (i : Nat) (e : E)
    (h1 : es1.allOk v s = true) (h2 : ext v s = .error e) :
    extractAllEv (es1.append (.cons ext intoBox es2)) v s i =
      (.error (intoBox e),
       okEvents i Ps.length ++
         [.cloned (i + Ps.length), .extracted (i + Ps.length) false]) := by
  induction es1 generalizing i with
  | nil =>
    simp only [Extractors.append, extractAllEv, h2, okEvents,
      List.length_nil, Nat.add_zero, List.nil_append]
  | cons ext1 intoBox1 rest ih =>
    simp only [Extractors.allOk, Bool.and_eq_true] at h1
    obtain ⟨ha, hb⟩ := h1
    simp only [Extractors.append, extractAllEv]
    cases hext : ext1 v s with
    | error rejection => rw [hext] at ha; simp [Except.isOk, Except.toBool] at ha
    | ok value =>
      have ih' := ih (i + 1) hb
      rw [ih']
      simp only [List.length_cons, okEvents, List.cons_append,
        Nat.add_succ, Nat.succ_add]

/-- The success trace of `n` extractors contains no handler-body event. -/
theorem bodyRun_not_mem_okEvents (i n : Nat) : Ev.bodyRun ∉ okEvents i n := by
  induction n generalizing i with
  | zero => simp [okEvents]
  | succ k ih => simp [okEvents]; exact ih (i + 1)

/-- The success trace of `n` extractors starting at index `i` mentions only
parameter indices in `[i, i + n)`. -/
theorem mem_okEvents_lt {i n j : Nat} {b : Bool}
    (h : Ev.cloned j ∈ okEvents i n ∨ Ev.extracted j b ∈ okEvents i n) :
    i ≤ j ∧ j < i + n := by
  induction n generalizing i with
  | zero => simp [okEvents] at h
  | succ k ih =>
    simp only [okEvents, List.mem_cons] at h
    rcases h with h | h
    · rcases h with h | h
      · cases h; omega
      · rcases h with h | h
        · cases h
        · have := ih (Or.inl h); omega
    · rcases h with h | h
      · cases h
      · rcases h with h | h
        · cases h; omega
        · have := ih (Or.inr h); omega

/-- The success trace of `n` extractors contains exactly `n` clone events. -/
theorem countClones_okEvents (i n : Nat) :
    (okEvents i n).countP Ev.isClone = n := by
  induction n generalizing i with
  | zero => simp [okEvents]
  | succ k ih =>
    simp [okEvents, List.countP_cons, Ev.isClone, ih (i + 1)]

/-- Soundness of the relational extraction semantics with respect to the
functional one. -/
theorem ExtractsTo.extractAll_eq {V S B : Type} {Ps : List Type}
    {es : Extractors V S B Ps} {v : V} {s : S} {r : Except B (HList Ps)}
    (h : ExtractsTo v s es r) : extractAll es v s = r := by
  induction h with
  | nil => rfl
  | consErr h => simp [extractAll, h]
  | consOk h hr ih => simp [extractAll, h, ih]
  | consRestErr h hr ih => simp [extractAll, h, ih]

/-- Completeness of the relational extraction semantics: the functional
result is always derivable. -/
theorem extractsTo_extractAll {V S B : Type} {Ps : List Type}
    (es : Extractors V S B Ps) (v : V) (s : S) :
    ExtractsTo v s es (extractAll es v s) := by
  induction es with
  | nil => exact .nil
  | cons ext intoBox rest ih =>
    simp only [extractAll]
    cases hext : ext v s with
    | error rejection => exact .consErr hext
    | ok value =>
      cases hrec : extractAll rest v s with
      | error e => rw [hrec] at ih; exact .consRestErr hext ih
      | ok args => rw [hrec] at ih; exact .consOk hext ih

/-- The relational invocation semantics holds exactly of the functional
invocation result. -/
theorem invokes_iff {V S B I : Type} {Ps : List Type} {Out : Type}
    (hd : Handler V S B Ps Out) (intoT : I → V) (input : I) (state : S)
    (r : Except B V) :
    Invokes hd intoT input state r ↔ hd.invoke intoT input state = r := by
  constructor
  · intro hi
    cases hi with
    | fail hex => simp [Handler.invoke, hex.extractAll_eq]
    | succeed hex => simp [Handler.invoke, hex.extractAll_eq]
  · intro he
    subst he
    have hall := extractsTo_extractAll hd.extractors (intoT input) state
    simp only [Handler.invoke]
    cases hrec : extractAll hd.extractors (intoT input) state with
    | error e => rw [hrec] at hall; exact .fail hall
    | ok args => rw [hrec] at hall; exact .succeed hall

/-- When every extractor succeeds, the whole invocation trace is the ordered
clone-then-extract events of every declared parameter followed by the
handler-body run and the response conversion. -/
theorem invokeEv_snd_allOk {V S B I : Type} {Ps : List Type} {Out : Type}
    (hd : Handler V S B Ps Out) (intoT : I → V) (input : I) (state : S)
    (h : hd.extractors.allOk (intoT input) state = true) :
    (hd.invokeEv intoT input state).2 =
      okEvents 0 Ps.length ++ [Ev.bodyRun, Ev.converted] := by
  have hsnd := extractAllEv_snd_allOk hd.extractors (intoT input) state 0 h
  have hfst := extractAllEv_fst hd.extractors (intoT input) state 0
  have hok := extractAll_isOk hd.extractors (intoT input) state
  rw [h] at hok
  simp only [Handler.invokeEv]
  rcases hrec : extractAllEv hd.extractors (intoT input) state 0 with ⟨fst, snd⟩
  rw [hrec] at hsnd hfst
  simp only at hsnd hfst
  rw [← hfst] at hok
  cases fst with
  | error e => simp [Except.isOk, Except.toBool] at hok
  | ok args => simp [hsnd]

/-! Claim theorems. -/

/-- C1: for every handler of arity n and every input and state, if the k-th
declared parameter's extractor fails and no extractor before it does, then
invoke runs no extractor for parameters k+1..n, constructs no partial
parameter list, never runs the handler body, and returns exactly that k-th
extraction failure converted into the unified boxed error type.  The handler
is written with its extractor telescope split around the failing position k
(`es1` holds the k extractors before it, all succeeding; `es2` the ones
after it); the event-trace equality shows that the run consists of exactly
the k successful clone-and-extract events followed by the failing k-th one
and nothing else — no event of any later extractor, no handler-body event —
and that the result is exactly the k-th failure under that parameter's
conversion into the unified error type. -/
theorem invoke_short_circuits_on_first_failure
    {V S B I : Type} {Ps Qs : List Type} {P E Out : Type}
    (es1 : Extractors V S B Ps) (ext : V → S → Except E P) (intoBox : E → B)
    (es2 : Extractors V S B Qs) (func : HList (Ps ++ P :: Qs) → Out)
    (intoResponse : Out → V) (intoT : I → V) (input : I) (state : S) (e : E)
    (h1 : es1.allOk (intoT input) state = true)
    (h2 : ext (intoT input) state = .error e) :
    Handler.invokeEv ⟨es1.append (.cons ext intoBox es2), func, intoResponse⟩
        intoT input state =
      (.error (intoBox e),
       okEvents 0 Ps.length ++
         [.cloned Ps.length, .extracted Ps.length false])
    ∧ Ev.bodyRun ∉
        (Handler.invokeEv ⟨es1.append (.cons ext intoBox es2), func, intoResponse⟩
          intoT input state).2 := by
  have hcore := extractAllEv_shortCircuit es1 ext intoBox es2 (intoT input)
    state 0 e h1 h2
  rw [Nat.zero_add] at hcore
  constructor
  · simp only [Handler.invokeEv, hcore]
  · simp only [Handler.invokeEv, hcore]
    simp [List.mem_append, bodyRun_not_mem_okEvents 0 Ps.length]

/-- Witness for C1: a three-parameter handler whose second extractor fails
on input 2 and state 3, with the first extractor succeeding. -/
theorem invoke_short_circuits_on_first_failure_witness :
    (Extractors.cons addExtract id Extractors.nil
        : Extractors Nat Nat String [Nat]).allOk 2 3 = true
  ∧ boomExtract 2 3 = Except.error "boom"
  ∧ (tripleHandler.invokeEv id 2 3 =
      (Except.error "boom",
       [Ev.cloned 0, Ev.extracted 0 true, Ev.cloned 1, Ev.extracted 1 false])
    ∧ Ev.bodyRun ∉ (tripleHandler.invokeEv id 2 3).2) :=
  ⟨rfl, rfl,
    invoke_short_circuits_on_first_failure
      (Extractors.cons addExtract id .nil) boomExtract id
      (.cons addExtract id .nil) tripleHandler.func id id 2 3 "boom" rfl rfl⟩

/-- C2: for every handler of arity n, every input, and every state, if all n
parameter extractions succeed (producing the parameter tuple `args`), then
invoke returns `Ok r` where `r` is exactly the canonical conversion of the
handler body's output on `args` into the shared value type `V`; the response
type of the invocation is `V` itself, as recorded by the result type
`Except B V` of `Handler.invoke`. -/
theorem invoke_converts_output_on_success
    {V S B I : Type} {Ps : List Type} {Out : Type}
    (hd : Handler V S B Ps Out) (intoT : I → V) (input : I) (state : S)
    (args : HList Ps)
    (h : extractAll hd.extractors (intoT input) state = .ok args) :
    hd.invoke intoT input state = .ok (hd.intoResponse (hd.func args)) := by
  simp [Handler.invoke, h]

/-- Witness for C2: the one-parameter example handler on input 2 and
state 3. -/
theorem invoke_converts_output_on_success_witness :
    extractAll addHandler.extractors 2 3 = Except.ok (.cons 5 .nil)
  ∧ addHandler.invoke id 2 3 =
      Except.ok (addHandler.intoResponse (addHandler.func (.cons 5 .nil))) :=
  ⟨rfl, invoke_converts_output_on_success addHandler id 2 3 (.cons 5 .nil) rfl⟩

/-- C3 counterexample: a concrete handler whose body signals an error
through its own declared result type (`Except String Int`, body returning
`Except.error "boom"`): its invocation does not return an `Err` — the
blanket implementation wraps the converted body output in `Ok`
unconditionally, so the body-signalled error surfaces inside `Ok` (here as
`-1`), never as the unified `Err` of the invocation. -/
theorem body_error_does_not_surface_counterexample :
    errorSignallingHandler.func .nil = Except.error "boom"
  ∧ errorSignallingHandler.invoke id (0 : Int) () = Except.ok (-1)
  ∧ (errorSignallingHandler.invoke id (0 : Int) ()).isOk = true :=
  ⟨rfl, rfl, rfl⟩

/-- C3 amended: the error value surfaced by invoke can wrap any extraction
error, but not an error the handler body signals via its own result type:
whenever every extraction succeeds, invoke returns `Ok`, so the body has no
channel through which to make invoke return `Err`. -/
theorem invoke_ok_after_successful_extraction
    {V S B I : Type} {Ps : List Type} {Out : Type}
    (hd : Handler V S B Ps Out) (intoT : I → V) (input : I) (state : S)
    (h : hd.extractors.allOk (intoT input) state = true) :
    (hd.invoke intoT input state).isOk = true := by
  have hok := extractAll_isOk hd.extractors (intoT input) state
  rw [h] at hok
  simp only [Handler.invoke]
  cases hrec : extractAll hd.extractors (intoT input) state with
  | error e => rw [hrec] at hok; simp [Except.isOk, Except.toBool] at hok
  | ok args => simp [Except.isOk, Except.toBool]

/-- Witness for the C3 amended theorem: the zero-parameter
error-signalling handler, whose (empty) extraction trivially succeeds. -/
theorem invoke_ok_after_successful_extraction_witness :
    (errorSignallingHandler.extractors.allOk (id (0 : Int)) () = true)
  ∧ (errorSignallingHandler.invoke id (0 : Int) ()).isOk = true :=
  ⟨rfl, invoke_ok_after_successful_extraction errorSignallingHandler id 0 () rfl⟩

/-- C4: for every single invocation, the extractions are performed in the
exact left-to-right declared order (the trace lists the clone-and-extract
events of parameters 0..n-1 in ascending order), the handler body begins
only after all n extractions have succeeded (the body event appears only
after every extraction event, and the extraction loop alone never emits a
body event), and the conversion of the output into the response happens only
after the handler body has completed (the conversion event is last, after
the body event). -/
theorem invoke_runs_in_declared_order
    {V S B I : Type} {Ps : List Type} {Out : Type}
    (hd : Handler V S B Ps Out) (intoT : I → V) (input : I) (state : S)
    (h : hd.extractors.allOk (intoT input) state = true) :
    (hd.invokeEv intoT input state).2 =
      okEvents 0 Ps.length ++ [Ev.bodyRun, Ev.converted]
    ∧ Ev.bodyRun ∉ (extractAllEv hd.extractors (intoT input) state 0).2 :=
  ⟨invokeEv_snd_allOk hd intoT input state h,
   bodyRun_not_mem_extractAllEv hd.extractors (intoT input) state 0⟩

/-- Witness for C4: the one-parameter example handler on input 2 and
state 3. -/
theorem invoke_runs_in_declared_order_witness :
    addHandler.extractors.allOk (id 2) 3 = true
  ∧ ((addHandler.invokeEv id 2 3).2 =
      [Ev.cloned 0, Ev.extracted 0 true, Ev.bodyRun, Ev.converted]
    ∧ Ev.bodyRun ∉ (extractAllEv addHandler.extractors (id 2) 3 0).2) :=
  ⟨rfl, invoke_runs_in_declared_order addHandler id 2 3 rfl⟩

/-- C5: for every zero-parameter handler returning a value convertible into
`V`, and for every input and every context, invoke performs no extraction
(the trace holds no clone or extraction event) and returns `Ok` of the
body's value converted into `V`, independent of the content of the input and
the context. -/
theorem invoke_zero_arity_constant
    {V S B I Out : Type} (func : HList [] → Out) (intoResponse : Out → V)
    (intoT : I → V) (input input2 : I) (state state2 : S) :
    Handler.invokeEv (B := B) ⟨.nil, func, intoResponse⟩ intoT input state =
      (.ok (intoResponse (func .nil)), [Ev.bodyRun, Ev.converted])
    ∧ Handler.invoke (B := B) ⟨.nil, func, intoResponse⟩ intoT input state =
        Handler.invoke (B := B) ⟨.nil, func, intoResponse⟩ intoT input2 state2 :=
  ⟨rfl, rfl⟩

/-- Witness for C5 (C5 has no hypothesis; this instantiates it anyway): a
concrete zero-parameter handler over naturals, at two different inputs and
states. -/
theorem invoke_zero_arity_constant_witness :
    Handler.invokeEv (B := String)
        ⟨.nil, fun _ => (7 : Nat), id⟩ id (1 : Nat) (2 : Nat) =
      (Except.ok 7, [Ev.bodyRun, Ev.converted])
    ∧ Handler.invoke (B := String)
        ⟨.nil, fun _ => (7 : Nat), id⟩ id (1 : Nat) (2 : Nat) =
      Handler.invoke (B := String)
        ⟨.nil, fun _ => (7 : Nat), id⟩ id (9 : Nat) (4 : Nat) :=
  invoke_zero_arity_constant (fun _ => (7 : Nat)) id id 1 9 2 4

/-- C6: for every handler whose extractions all succeed, invoke clones the
converted input value exactly once per declared parameter (the trace holds
exactly n clone events, one per parameter, each immediately preceding that
parameter's extractor run); concretely, the `multiple_args` example — a
handler declaring three parameters of the byte-decoding `Topic` type,
invoked with the byte-sequence input "world" — returns `Ok` of the byte
sequence "Hello, world world world!". -/
theorem invoke_clones_once_per_parameter
    {V S B I : Type} {Ps : List Type} {Out : Type}
    (hd : Handler V S B Ps Out) (intoT : I → V) (input : I) (state : S)
    (h : hd.extractors.allOk (intoT input) state = true) :
    ((hd.invokeEv intoT input state).2.countP Ev.isClone) = Ps.length
    ∧ multiHandler.invoke id (Frame.ofString "world") () =
        Except.ok (Frame.ofString "Hello, world world world!") := by
  constructor
  · rw [invokeEv_snd_allOk hd intoT input state h]
    simp [List.countP_append, countClones_okEvents, List.countP_cons, Ev.isClone]
  · rfl

/-- Witness for C6: the three-`Topic` handler of the `multiple_args` test on
the byte sequence "world". -/
theorem invoke_clones_once_per_parameter_witness :
    multiHandler.extractors.allOk (id (Frame.ofString "world")) () = true
  ∧ (((multiHandler.invokeEv id (Frame.ofString "world") ()).2.countP
        Ev.isClone) = 3
    ∧ multiHandler.invoke id (Frame.ofString "world") () =
        Except.ok (Frame.ofString "Hello, world world world!")) :=
  ⟨rfl, invoke_clones_once_per_parameter multiHandler id
    (Frame.ofString "world") () rfl⟩

/-- C7: the built-in state-passthrough extractor `State` ignores the input
value entirely: for every input value and every context convertible into the
given state type, its extract returns `Ok (State s)` where `s` is the
context converted, the result does not depend on the input value, and it
never returns its error branch. -/
theorem state_extractor_ignores_input
    {T C GS : Type} (intoGiven : C → GS) (v v2 : T) (c : C) (e : String) :
    State.extract intoGiven v c = Except.ok ⟨intoGiven c⟩
    ∧ State.extract intoGiven v c = State.extract intoGiven v2 c
    ∧ State.extract intoGiven v c ≠ Except.error e :=
  ⟨rfl, rfl, by simp [State.extract]⟩

/-- Witness for C7 (C7 has no hypothesis; this instantiates it anyway): the
`State` extractor over naturals. -/
theorem state_extractor_ignores_input_witness :
    State.extract (fun c : Nat => c + 1) (0 : Nat) 4 = Except.ok ⟨5⟩
    ∧ State.extract (fun c : Nat => c + 1) (0 : Nat) 4 =
        State.extract (fun c : Nat => c + 1) (9 : Nat) 4
    ∧ State.extract (fun c : Nat => c + 1) (0 : Nat) 4 ≠
        Except.error "nope" :=
  state_extractor_ignores_input (fun c : Nat => c + 1) 0 9 4 "nope"

/-- C8: for every fixed triple of handler, input and state, any two runs of
the invocation (as derivations of the relational big-step semantics, whose
extractors and handler body are pure functions by construction of the
embedding) yield equal results. -/
theorem invoke_deterministic
    {V S B I : Type} {Ps : List Type} {Out : Type}
    (hd : Handler V S B Ps Out) (intoT : I → V) (input : I) (state : S)
    (r1 r2 : Except B V)
    (h1 : Invokes hd intoT input state r1)
    (h2 : Invokes hd intoT input state r2) : r1 = r2 := by
  have e1 := (invokes_iff hd intoT input state r1).1 h1
  have e2 := (invokes_iff hd intoT input state r2).1 h2
  rw [← e1, ← e2]

/-- Witness for C8: two derived runs of the one-parameter example handler on
input 2 and state 3, both yielding `Ok 5`. -/
theorem invoke_deterministic_witness :
    Invokes addHandler id 2 3 (Except.ok 5)
  ∧ (Except.ok (5 : Nat) : Except String Nat) = Except.ok 5 :=
  ⟨(invokes_iff addHandler id 2 3 (Except.ok 5)).2 rfl,
   invoke_deterministic addHandler id 2 3 (Except.ok 5) (Except.ok 5)
     ((invokes_iff addHandler id 2 3 (Except.ok 5)).2 rfl)
     ((invokes_iff addHandler id 2 3 (Except.ok 5)).2 rfl)⟩

/-- C9: the Handler capability is one single algorithm definition
(`Handler.invoke` over an extractor telescope), uniformly instantiated for
every parameter count from 0 up to the fixed maximum of 12 inclusive: for
each arity n in 0..12, the literal unrolled expansion the macro
`define_handler_for_tuple` produces at that arity agrees, at every
instantiation, with the single generic algorithm. -/
theorem handler_uniform_across_arities :
    AgreesArity0 ∧ AgreesArity1 ∧ AgreesArity2 ∧ AgreesArity3 ∧ AgreesArity4
    ∧ AgreesArity5 ∧ AgreesArity6 ∧ AgreesArity7 ∧ AgreesArity8
    ∧ AgreesArity9 ∧ AgreesArity10 ∧ AgreesArity11 ∧ AgreesArity12 :=
  ⟨agreesArity0, agreesArity1, agreesArity2, agreesArity3, agreesArity4,
   agreesArity5, agreesArity6, agreesArity7, agreesArity8, agreesArity9,
   agreesArity10, agreesArity11, agreesArity12⟩

/-- Witness for C9 (C9 has no hypothesis; this instantiates its arity-1
conjunct anyway): the unrolled arity-1 implementation agrees with the
generic algorithm on a concrete extractor, handler and input. -/
theorem handler_uniform_across_arities_witness :
    invokeArity1 addExtract id (fun a => a) id id 2 3 =
      Handler.invoke
        ⟨.cons addExtract id .nil,
         fun args => match args with | .cons a1 .nil => (fun a => a) a1,
         id⟩ id 2 3 :=
  handler_uniform_across_arities.2.1 addExtract id (fun a => a) id id 2 3

/-- C10: for every handler of any supported arity, every input, and every
state, invoke returns `Err` if and only if some parameter's extraction
fails: the invocation result is `Ok` exactly when every extractor succeeds,
because the handler body's output is infallibly converted into the value
type — a handler body has no channel through which to make invoke return
`Err`. -/
theorem invoke_err_iff_extraction_fails
    {V S B I : Type} {Ps : List Type} {Out : Type}
    (hd : Handler V S B Ps Out) (intoT : I → V) (input : I) (state : S) :
    (hd.invoke intoT input state).isOk =
      hd.extractors.allOk (intoT input) state := by
  have hok := extractAll_isOk hd.extractors (intoT input) state
  simp only [Handler.invoke]
  cases hrec : extractAll hd.extractors (intoT input) state with
  | error e =>
    rw [hrec] at hok
    simpa [Except.isOk, Except.toBool] using hok
  | ok args =>
    rw [hrec] at hok
    simpa [Except.isOk, Except.toBool] using hok

/-- Witness for C10 (C10 has no hypothesis; this instantiates it anyway):
the three-parameter handler with a failing second extractor, whose
invocation is accordingly not `Ok`. -/
theorem invoke_err_iff_extraction_fails_witness :
    (tripleHandler.invoke id 2 3).isOk =
      tripleHandler.extractors.allOk (id 2) 3 :=
  invoke_err_iff_extraction_fails tripleHandler id 2 3

end Occult

